import Mathlib

/-!
Verification of the credit-scoring inference pipeline
(app/streamlit_app.py) and the batch training-artifact pipeline
(src/recreate_scaling.py), as a shallow embedding over the rationals.
Machine floats are modelled by exact rational arithmetic; the square
root inside numpy std is kept explicit (the embedding carries the
squared value, and real-valued bridging statements relate it to the
root where a claim speaks about the root itself). The fitted model,
imputer and scaler are opaque artifacts and enter the embedding as
function parameters; a scaler transform that can raise is a function
into Except.
-/

namespace CreditScoring

/-! ## Inference-time derived ratios (streamlit_app.py lines 136-140) -/

/-- CREDIT_TO_ANNUITY_RATIO as computed by the app (line 136):
credit_amount / annuity if annuity > 0 else 0. -/
def creditToAnnuityRatio (credit_amount annuity : ℚ) : ℚ :=
  if annuity > 0 then credit_amount / annuity else 0

/-- CREDIT_TO_GOODS_RATIO as computed by the app (line 137):
credit_amount / goods_price if goods_price > 0 else 0. -/
def creditToGoodsRatio (credit_amount goods_price : ℚ) : ℚ :=
  if goods_price > 0 then credit_amount / goods_price else 0

/-- EMPLOYMENT_TO_AGE_RATIO as computed by the app (line 140):
employment_years / age if age > 0 else 0. -/
def employmentToAgeRatio (employment_years age : ℚ) : ℚ :=
  if age > 0 then employment_years / age else 0

/-! ## Inference-time external-source statistics (lines 142-146).
The app computes numpy mean, std, min, max of the three-element list
[ext_source_1, ext_source_2, ext_source_3]. numpy std is the
population standard deviation (ddof = 0); it is the nonnegative square
root of the value npStdSq3 below. -/

/-- np.mean of the three external sources (line 143). -/
def npMean3 (a b c : ℚ) : ℚ := (a + b + c) / 3

/-- The square of np.std of the three external sources (line 144):
population variance, ddof = 0. np.std itself returns the nonnegative
square root of this value. -/
def npStdSq3 (a b c : ℚ) : ℚ :=
  ((a - npMean3 a b c) ^ 2 + (b - npMean3 a b c) ^ 2 + (c - npMean3 a b c) ^ 2) / 3

/-- np.min of the three external sources (line 145). -/
def npMin3 (a b c : ℚ) : ℚ := min a (min b c)

/-- np.max of the three external sources (line 146). -/
def npMax3 (a b c : ℚ) : ℚ := max a (max b c)

/-! ## Batch pipeline create_features (src/recreate_scaling.py lines 8-29) -/

/-- CREDIT_TO_ANNUITY_RATIO from create_features (recreate_scaling.py
line 14): AMT_CREDIT / (AMT_ANNUITY + 1), no branch. -/
def batchCreditToAnnuityRatio (amt_credit amt_annuity : ℚ) : ℚ :=
  amt_credit / (amt_annuity + 1)

/-- CREDIT_TO_GOODS_RATIO from create_features (line 15):
AMT_CREDIT / (AMT_GOODS_PRICE + 1). -/
def batchCreditToGoodsRatio (amt_credit amt_goods_price : ℚ) : ℚ :=
  amt_credit / (amt_goods_price + 1)

/-- AGE_YEARS from create_features (line 18): -DAYS_BIRTH / 365. -/
def batchAgeYears (days_birth : ℚ) : ℚ := -days_birth / 365

/-- EMPLOYMENT_YEARS from create_features (line 19). -/
def batchEmploymentYears (days_employed : ℚ) : ℚ := -days_employed / 365

/-- EMPLOYMENT_TO_AGE_RATIO from create_features (line 20):
EMPLOYMENT_YEARS / (AGE_YEARS + 1). -/
def batchEmploymentToAgeRatio (employment_years age_years : ℚ) : ℚ :=
  employment_years / (age_years + 1)

/-- The square of the pandas row std used by create_features (line 25):
sample variance with ddof = 1. pandas DataFrame.std returns the
nonnegative square root of this value. -/
def pdStdSq3 (a b c : ℚ) : ℚ :=
  ((a - npMean3 a b c) ^ 2 + (b - npMean3 a b c) ^ 2 + (c - npMean3 a b c) ^ 2) / 2

/-! ## Scoring and display (streamlit_app.py lines 208-232) -/

/-- Python int() applied to a rational: truncation toward zero. -/
def pyInt (x : ℚ) : ℤ := if 0 ≤ x then ⌊x⌋ else ⌈x⌉

/-- credit_score = int(850 - probability * 550) (line 212). -/
def creditScore (p : ℚ) : ℤ := pyInt (850 - p * 550)

/-- The three risk buckets shown to the user (lines 226-232). -/
inductive RiskTier
  | low
  | medium
  | high
deriving DecidableEq, Repr

/-- Risk tiering (lines 226-232): probability < 0.2 gives Low,
elif probability < 0.5 gives Medium, else High. -/
def riskTier (p : ℚ) : RiskTier :=
  if p < 1/5 then .low else if p < 1/2 then .medium else .high

/-! ## The input dictionary and alignment (streamlit_app.py lines 116-185)

A Python dict is modelled as a partial map from keys to rationals.
The dict is initialized from the median table over the schema feature
list (line 118), then mutated by the straight-line sequence of
assignments of lines 123-173, and finally re-read in schema order to
build the aligned input (lines 180-183). -/

/-- A Python dict with string keys and float values. -/
abbrev PyDict := String → Option ℚ

/-- d.get(k, dflt). -/
def dget (d : PyDict) (k : String) (dflt : ℚ) : ℚ := (d k).getD dflt

/-- d[k] = v. -/
def dset (d : PyDict) (k : String) (v : ℚ) : PyDict :=
  fun k' => if k' = k then some v else d k'

/-- medians.get(feat, 0): median-table lookup with default 0. -/
def mget (medians : List (String × ℚ)) (k : String) : ℚ :=
  (medians.lookup k).getD 0

/-- Python substring test on char lists: sub occurs contiguously. -/
def containsSubList (sub : List Char) : List Char → Bool
  | [] => sub.isEmpty
  | c :: rest => sub.isPrefixOf (c :: rest) || containsSubList sub rest

/-- Python membership test "sub in s" on strings. -/
def containsSub (s sub : String) : Bool := containsSubList sub.toList s.toList

/-- The raw form inputs collected in the sidebar (lines 73-110).
Numeric fields are rationals, ownership flags are booleans, and the
categorical selections are the exact option strings of the
selectboxes. -/
structure RawApplicant where
  credit_amount : ℚ
  goods_price : ℚ
  annuity : ℚ
  income : ℚ
  age : ℚ
  employment_years : ℚ
  ext_source_1 : ℚ
  ext_source_2 : ℚ
  ext_source_3 : ℚ
  region_rating : ℚ
  own_car : Bool
  own_realty : Bool
  work_phone : Bool
  gender : String
  education : String
  family_status : String
  housing_type : String
  occupation : String
  org_type : String
  income_type : String

/-- The assignments to input_dict of lines 123-173, in source order,
as (condition, key, value) triples; unconditional assignments carry
the condition true, and an elif branch carries the negation of the
branches before it. The parameter sq stands for the square-root
routine inside np.std: the stored EXT_SOURCE_STD is sq applied to the
population variance npStdSq3 (line 144). -/
def updates (sq : ℚ → ℚ) (r : RawApplicant) : List (Bool × String × ℚ) :=
  [ (true, "AMT_CREDIT", r.credit_amount),
    (true, "AMT_GOODS_PRICE", r.goods_price),
    (true, "DAYS_BIRTH", r.age * (-365)),
    (true, "DAYS_EMPLOYED", r.employment_years * (-365)),
    (true, "EXT_SOURCE_1", r.ext_source_1),
    (true, "EXT_SOURCE_2", r.ext_source_2),
    (true, "EXT_SOURCE_3", r.ext_source_3),
    (true, "REGION_RATING_CLIENT", r.region_rating),
    (true, "REGION_RATING_CLIENT_W_CITY", r.region_rating),
    (true, "FLAG_WORK_PHONE", if r.work_phone then 1 else 0),
    (true, "CREDIT_TO_ANNUITY_RATIO", creditToAnnuityRatio r.credit_amount r.annuity),
    (true, "CREDIT_TO_GOODS_RATIO", creditToGoodsRatio r.credit_amount r.goods_price),
    (true, "AGE_YEARS", r.age),
    (true, "EMPLOYMENT_YEARS", r.employment_years),
    (true, "EMPLOYMENT_TO_AGE_RATIO", employmentToAgeRatio r.employment_years r.age),
    (true, "EXT_SOURCE_MEAN", npMean3 r.ext_source_1 r.ext_source_2 r.ext_source_3),
    (true, "EXT_SOURCE_STD", sq (npStdSq3 r.ext_source_1 r.ext_source_2 r.ext_source_3)),
    (true, "EXT_SOURCE_MIN", npMin3 r.ext_source_1 r.ext_source_2 r.ext_source_3),
    (true, "EXT_SOURCE_MAX", npMax3 r.ext_source_1 r.ext_source_2 r.ext_source_3),
    (containsSub r.gender "ชาย", "CODE_GENDER_M", 1),
    (r.own_car, "FLAG_OWN_CAR_Y", 1),
    (containsSub r.education "มัธยมศึกษา",
      "NAME_EDUCATION_TYPE_Secondary / secondary special", 1),
    (!containsSub r.education "มัธยมศึกษา" && containsSub r.education "ปริญญาตรี",
      "NAME_EDUCATION_TYPE_Higher education", 1),
    (containsSub r.family_status "แต่งงานแล้ว", "NAME_FAMILY_STATUS_Married", 1),
    (!containsSub r.family_status "แต่งงานแล้ว" && containsSub r.family_status "โสด",
      "NAME_FAMILY_STATUS_Single / not married", 1),
    (containsSub r.housing_type "บ้าน/อพาร์ทเมนท์ส่วนตัว",
      "NAME_HOUSING_TYPE_House / apartment", 1),
    (!containsSub r.housing_type "บ้าน/อพาร์ทเมนท์ส่วนตัว" && containsSub r.housing_type "อยู่กับพ่อแม่",
      "NAME_HOUSING_TYPE_With parents", 1),
    (containsSub r.occupation "เจ้าหน้าที่", "OCCUPATION_TYPE_Core staff", 1),
    (!containsSub r.occupation "เจ้าหน้าที่" && containsSub r.occupation "คนขับรถ",
      "OCCUPATION_TYPE_Drivers", 1),
    (!containsSub r.occupation "เจ้าหน้าที่" && !containsSub r.occupation "คนขับรถ" &&
        containsSub r.occupation "แรงงาน",
      "OCCUPATION_TYPE_Low-skill Laborers", 1),
    (containsSub r.org_type "ธุรกิจส่วนตัว", "ORGANIZATION_TYPE_Business Entity Type 3", 1),
    (!containsSub r.org_type "ธุรกิจส่วนตัว" && containsSub r.org_type "อาชีพอิสระ",
      "ORGANIZATION_TYPE_Self-employed", 1),
    (!containsSub r.org_type "ธุรกิจส่วนตัว" && !containsSub r.org_type "อาชีพอิสระ" &&
        containsSub r.org_type "ไม่ระบุ",
      "ORGANIZATION_TYPE_XNA", 1),
    (containsSub r.income_type "มนุษย์เงินเดือน", "NAME_INCOME_TYPE_Working", 1),
    (!containsSub r.income_type "มนุษย์เงินเดือน" && containsSub r.income_type "ข้าราชการ",
      "NAME_INCOME_TYPE_State servant", 1),
    (!containsSub r.income_type "มนุษย์เงินเดือน" && !containsSub r.income_type "ข้าราชการ" &&
        containsSub r.income_type "บำนาญ",
      "NAME_INCOME_TYPE_Pensioner", 1),
    (!containsSub r.income_type "มนุษย์เงินเดือน" && !containsSub r.income_type "ข้าราชการ" &&
        !containsSub r.income_type "บำนาญ" && containsSub r.income_type "เอกชน",
      "NAME_INCOME_TYPE_Commercial associate", 1) ]

/-- One conditional assignment applied to the dict. -/
def applyUpdate (d : PyDict) (u : Bool × String × ℚ) : PyDict :=
  if u.1 then dset d u.2.1 u.2.2 else d

/-- The assignment sequence applied left to right. -/
def foldUpdates (l : List (Bool × String × ℚ)) (d : PyDict) : PyDict :=
  l.foldl applyUpdate d

/-- input_dict before the assignments (line 118): every schema feature
is present and maps to its median-table value, default 0. -/
def initDict (features : List String) (medians : List (String × ℚ)) : PyDict :=
  fun k => if k ∈ features then some (mget medians k) else none

/-- input_dict after the full mapping of lines 118-173. -/
def inputDict (sq : ℚ → ℚ) (features : List String) (medians : List (String × ℚ))
    (r : RawApplicant) : PyDict :=
  foldUpdates (updates sq r) (initDict features medians)

/-- aligned_input (line 183): for every schema feature in schema order,
input_dict.get(feat, 0); model_features is EXPECTED_FEATURES itself
(line 180). -/
def alignedInput (sq : ℚ → ℚ) (features : List String) (medians : List (String × ℚ))
    (r : RawApplicant) : List (String × ℚ) :=
  features.map fun f => (f, dget (inputDict sq features medians r) f 0)

/-- A concrete applicant used to instantiate the claims: a female
applicant with no car, Lower secondary education, Widow family status,
a rented apartment, Managers occupation, Others organization and
Unemployed/Student income type, so that no category flag of any group
is triggered by the mapping. -/
def rawFemale : RawApplicant :=
  { credit_amount := 200000
    goods_price := 180000
    annuity := 10000
    income := 50000
    age := 30
    employment_years := 5
    ext_source_1 := 1/2
    ext_source_2 := 1/2
    ext_source_3 := 1/2
    region_rating := 2
    own_car := false
    own_realty := true
    work_phone := true
    gender := "หญิง (Female)"
    education := "มัธยมต้น (Lower secondary)"
    family_status := "หม้าย (Widow)"
    housing_type := "เช่าอพาร์ทเมนท์"
    occupation := "ผู้จัดการ (Managers)"
    org_type := "อื่นๆ"
    income_type := "คนว่างงาน/นักศึกษา (Unemployed/Student)" }

/-! ## Preprocessing and scoring pipeline (streamlit_app.py lines 187-232)

The imputer and scaler are opaque fitted artifacts; the scaler
transform can raise (sklearn ValueError on a shape mismatch), which is
modelled by a function into Except. The app catches the error, prints
a console warning, and proceeds on the unscaled vector (lines
200-203); the user-facing output is the assessment alone. -/

/-- The caller-visible result of one request: probability, display
score and risk tier (lines 208-232). It carries no degradation flag. -/
structure RiskAssessment where
  probability : ℚ
  credit_score : ℤ
  tier : RiskTier
deriving DecidableEq, Repr

/-- The displayed assessment as a function of the predicted
probability (lines 208-232). -/
def assess (p : ℚ) : RiskAssessment := ⟨p, creditScore p, riskTier p⟩

/-- Imputation step (lines 189-192): transform when an imputer is
loaded, identity otherwise. -/
def imputeStep (imputer : Option (List ℚ → List ℚ)) (v : List ℚ) : List ℚ :=
  match imputer with
  | some f => f v
  | none => v

/-- Scaling step (lines 194-205): try scaler.transform; on ValueError
print a console warning and continue with the imputed vector. Returns
the vector used for prediction together with the console output. -/
def scaleStep (scaler : Option (List ℚ → Except String (List ℚ))) (v : List ℚ) :
    List ℚ × List String :=
  match scaler with
  | some f =>
    match f v with
    | .ok w => (w, [])
    | .error ve => (v, ["Scaling warning: " ++ ve])
  | none => (v, [])

/-- The per-request pipeline from the aligned vector to the displayed
assessment (lines 187-232): impute, scale with fallback, predict,
display. The second component is the console output, which the
end user of the app never sees. -/
def scorePipeline (model : List ℚ → ℚ) (imputer : Option (List ℚ → List ℚ))
    (scaler : Option (List ℚ → Except String (List ℚ))) (v : List ℚ) :
    RiskAssessment × List String :=
  let vi := imputeStep imputer v
  let sres := scaleStep scaler vi
  (assess (model sres.1), sres.2)

/-- A classifier returning the same probability on every input. -/
def constModel : List ℚ → ℚ := fun _ => 1/2

/-- A scaler transform raising the sklearn shape-mismatch ValueError
on every input. -/
def failingScaler : List ℚ → Except String (List ℚ) :=
  fun _ => .error "X has 2 features, but RobustScaler is expecting 3 features as input."

/-- A scaler transform accepting every input unchanged. -/
def identityScaler : List ℚ → Except String (List ℚ) := fun v => .ok v

/-! ## Helper lemmas -/

/-- Looking up a present key in a map-built association list returns
the generating function at that key. -/
theorem lookup_map_pair (g : String → ℚ) (features : List String) (name : String)
    (h : name ∈ features) :
    (features.map fun f => (f, g f)).lookup name = some (g name) := by
  induction features with
  | nil => cases h
  | cons f t ih =>
    rcases eq_or_ne f name with rfl | hne
    · simp [List.lookup]
    · have hmem : name ∈ t := by
        cases h with
        | head => exact absurd rfl hne
        | tail _ h2 => exact h2
      have hbe : (name == f) = false := beq_eq_false_iff_ne.mpr (Ne.symm hne)
      simp [List.lookup, hbe, ih hmem]

/-- An assignment sequence in which every assignment targeting a key
has a false condition leaves the dict unchanged at that key. -/
theorem foldUpdates_apply_off (l : List (Bool × String × ℚ)) (d : PyDict)
    (name : String) (hf : ∀ u ∈ l, u.2.1 = name → u.1 = false) :
    foldUpdates l d name = d name := by
  induction l generalizing d with
  | nil => rfl
  | cons u t ih =>
    have hu := hf u (List.mem_cons_self u t)
    have ht : ∀ w ∈ t, w.2.1 = name → w.1 = false :=
      fun w hw => hf w (List.mem_cons_of_mem u hw)
    show foldUpdates t (applyUpdate d u) name = d name
    rw [ih (applyUpdate d u) ht]
    unfold applyUpdate
    by_cases hc : u.1 = true
    · have hk : u.2.1 ≠ name := by
        intro he
        have hcontra := hu he
        rw [hc] at hcontra
        cases hcontra
      rw [if_pos hc]
      show (if name = u.2.1 then some u.2.2 else d name) = d name
      rw [if_neg (fun he2 => hk he2.symm)]
    · rw [if_neg hc]

/-- A schema feature targeted only by assignments whose conditions are
false for the given applicant keeps its median-table default in
input_dict. -/
theorem dget_inputDict_off (sq : ℚ → ℚ) (features : List String)
    (medians : List (String × ℚ)) (r : RawApplicant) (name : String)
    (hmem : name ∈ features)
    (hf : ∀ u ∈ updates sq r, u.2.1 = name → u.1 = false) :
    dget (inputDict sq features medians r) name 0 = mget medians name := by
  rw [dget, inputDict,
    foldUpdates_apply_off (updates sq r) (initDict features medians) name hf]
  show ((if name ∈ features then some (mget medians name) else none).getD 0) = _
  rw [if_pos hmem]
  rfl

/-! ## Claim C1: denominator convention at inference vs batch -/

/-- C1, counterexample: at credit_amount = 200000, annuity = 10000 the
app computes 20 while the batch create_features computes 200000/10001;
the two denominator conventions do not agree. -/
theorem c1_counterexample :
    creditToAnnuityRatio 200000 10000 ≠ batchCreditToAnnuityRatio 200000 10000 := by
  rw [creditToAnnuityRatio, batchCreditToAnnuityRatio,
    if_pos (by norm_num : (10000 : ℚ) > 0)]
  norm_num

/-- C1 (corrected): the inference-time derivation divides by annuity
(with a zero guard) while the batch create_features divides by
annuity + 1; for annuity > 0 the two values agree exactly when
credit_amount = 0, so on every positive credit amount they differ. -/
theorem c1_theorem (c a : ℚ) (ha : 0 < a) :
    creditToAnnuityRatio c a = batchCreditToAnnuityRatio c a ↔ c = 0 := by
  rw [creditToAnnuityRatio, if_pos ha, batchCreditToAnnuityRatio,
    div_eq_div_iff (ne_of_gt ha) (by linarith)]
  constructor
  · intro h
    nlinarith [h]
  · intro h
    rw [h]
    ring

/-- C1 witness: the corrected statement evaluated at credit_amount = 0,
annuity = 1. -/
theorem c1_witness :
    creditToAnnuityRatio 0 1 = batchCreditToAnnuityRatio 0 1 ↔ (0 : ℚ) = 0 :=
  c1_theorem 0 1 (by norm_num)

/-! ## Claim C2: external-source statistics at inference time -/

/-- C2, counterexample: on [0.2, 0.5, 0.8] the app computes
EXT_SOURCE_STD with np.std (population, ddof = 0), whose square is
6/100; no real number squaring to that value equals 0.3, so the
inference-time std is not the ddof = 1 sample value 0.3. -/
theorem c2_counterexample :
    npStdSq3 (2/10) (5/10) (8/10) ≠ (3/10) ^ 2 ∧
    ∀ s : ℝ, s ^ 2 = ((npStdSq3 (2/10) (5/10) (8/10) : ℚ) : ℝ) → s ≠ 3/10 := by
  have h6 : npStdSq3 (2/10) (5/10) (8/10) = 6/100 := by
    norm_num [npStdSq3, npMean3]
  constructor
  · rw [h6]
    norm_num
  · intro s h2 he
    subst he
    rw [h6] at h2
    norm_num at h2

/-- C2 (corrected): on [0.2, 0.5, 0.8] the inference-time derivation
gives mean 0.5, min 0.2, max 0.8 as claimed, but its std is the
population standard deviation (np.std, ddof = 0) with square 6/100,
while the ddof = 1 sample convention (square 9/100, that is std = 0.3)
is the one computed by the batch create_features through pandas std. -/
theorem c2_theorem :
    npMean3 (2/10) (5/10) (8/10) = 5/10 ∧
    npMin3 (2/10) (5/10) (8/10) = 2/10 ∧
    npMax3 (2/10) (5/10) (8/10) = 8/10 ∧
    npStdSq3 (2/10) (5/10) (8/10) = 6/100 ∧
    pdStdSq3 (2/10) (5/10) (8/10) = (3/10) ^ 2 := by
  refine ⟨?_, ?_, ?_, ?_, ?_⟩
  · norm_num [npMean3]
  · norm_num [npMin3, min_def]
  · norm_num [npMax3, max_def]
  · norm_num [npStdSq3, npMean3]
  · norm_num [pdStdSq3, npMean3]

/-! ## Claim C3: category values without a flag and the aligned flags -/

/-- C3, counterexample: rawFemale has gender Female, which is outside
the flag-bearing set for the gender group, yet under the median table
sending CODE_GENDER_M to 1 the aligned vector carries 1 (the median
default), not 0: untouched flags fall back to the median table, not to
zero. -/
theorem c3_counterexample :
    rawFemale.gender = "หญิง (Female)" ∧
    (alignedInput id ["CODE_GENDER_M"] [("CODE_GENDER_M", 1)] rawFemale).lookup
      "CODE_GENDER_M" = some 1 ∧ (1 : ℚ) ≠ 0 := by
  refine ⟨rfl, by decide, by decide⟩

/-- C3 (corrected): if every assignment of the mapping that targets a
given schema flag has a false trigger condition for the applicant
(which is what holds when the category value of the group triggers
none of the substring rules of lines 149-173; note the effective
trigger sets differ from the enumerated spec sets, for example the
option Incomplete higher triggers the Higher-education flag and the
option Laborers triggers the Low-skill Laborers flag), then the flag
in the aligned vector equals the median-table entry for it (0 when
absent), not 0 unconditionally. -/
theorem c3_theorem (sq : ℚ → ℚ) (features : List String)
    (medians : List (String × ℚ)) (r : RawApplicant) (name : String)
    (hmem : name ∈ features)
    (hf : ∀ u ∈ updates sq r, u.2.1 = name → u.1 = false) :
    (alignedInput sq features medians r).lookup name = some (mget medians name) := by
  rw [alignedInput,
    lookup_map_pair (fun f => dget (inputDict sq features medians r) f 0) features name hmem,
    dget_inputDict_off sq features medians r name hmem hf]

/-- C3 witness: the corrected statement on rawFemale, whose gender
Female makes the single CODE_GENDER_M trigger false, under a median
table sending that flag to 1. -/
theorem c3_witness :
    (alignedInput id ["CODE_GENDER_M"] [("CODE_GENDER_M", 1)] rawFemale).lookup
      "CODE_GENDER_M" = some (mget [("CODE_GENDER_M", 1)] "CODE_GENDER_M") :=
  c3_theorem id ["CODE_GENDER_M"] [("CODE_GENDER_M", 1)] rawFemale "CODE_GENDER_M"
    (by decide) (by decide)

/-! ## Claim C4: display score formula -/

/-- C4, counterexample: at probability 0.15 (the end-to-end example of
the spec) the code value int(850 - 0.15 * 550) = int(767.5) = 767,
while round(767.5) = 768 (both under round-half-up and under Python
round-half-to-even, since 768 is even), so the display score is not
round(850 - p * 550). -/
theorem c4_counterexample :
    creditScore (15/100) ≠ round ((850 : ℚ) - (15/100) * 550) := by
  rw [creditScore, pyInt, if_pos (by norm_num : (0 : ℚ) ≤ 850 - 15/100 * 550),
    round_eq]
  have h1 : ⌊(850 : ℚ) - 15/100 * 550⌋ = 767 := by
    rw [show (850 : ℚ) - 15/100 * 550 = 767 + 1/2 by norm_num]
    rw [Int.floor_eq_iff]
    constructor <;> norm_num
  have h2 : ⌊(850 : ℚ) - 15/100 * 550 + 1/2⌋ = 768 := by
    rw [show (850 : ℚ) - 15/100 * 550 + 1/2 = 768 by norm_num]
    exact_mod_cast Int.floor_intCast 768
  rw [h1, h2]
  norm_num

/-- C4 (corrected): the display score equals int(850 - p * 550), which
truncates toward zero (the floor, since the operand is nonnegative on
the probability range), not round; for every probability p in [0, 1]
that value already lies inside [300, 850]. -/
theorem c4_theorem (p : ℚ) (h0 : 0 ≤ p) (h1 : p ≤ 1) :
    creditScore p = ⌊(850 : ℚ) - p * 550⌋ ∧
    300 ≤ creditScore p ∧ creditScore p ≤ 850 := by
  have hx : (300 : ℚ) ≤ 850 - p * 550 := by nlinarith
  have hx0 : (0 : ℚ) ≤ 850 - p * 550 := by linarith
  have heq : creditScore p = ⌊(850 : ℚ) - p * 550⌋ := by
    rw [creditScore, pyInt, if_pos hx0]
  refine ⟨heq, ?_, ?_⟩
  · rw [heq]
    exact_mod_cast Int.le_floor.mpr (by exact_mod_cast hx)
  · rw [heq]
    have : ⌊(850 : ℚ) - p * 550⌋ ≤ ⌊(850 : ℚ)⌋ :=
      Int.floor_le_floor (by nlinarith)
    simpa using this

/-- C4 witness: the corrected statement at p = 0.15, where the score is
767. -/
theorem c4_witness :
    creditScore (15/100) = ⌊(850 : ℚ) - (15/100) * 550⌋ ∧
    300 ≤ creditScore (15/100) ∧ creditScore (15/100) ≤ 850 :=
  c4_theorem (15/100) (by norm_num) (by norm_num)

/-! ## Claim C5: aligned keys equal the schema in order -/

/-- C5 (confirmed): for every applicant, every median table and every
duplicate-free schema, the aligned vector has exactly the schema
feature names as its keys, in schema order, with none missing and none
extra. -/
theorem c5_theorem (sq : ℚ → ℚ) (features : List String)
    (medians : List (String × ℚ)) (r : RawApplicant)
    (hnd : features.Nodup) :
    (alignedInput sq features medians r).map Prod.fst = features := by
  simp [alignedInput, List.map_map, Function.comp_def]

/-- C5 witness: a three-feature schema reproduced exactly by the
aligned keys. -/
theorem c5_witness :
    (alignedInput id ["AMT_CREDIT", "CODE_GENDER_M", "PREV_CNT_PAYMENT_max"]
      [] rawFemale).map Prod.fst =
      ["AMT_CREDIT", "CODE_GENDER_M", "PREV_CNT_PAYMENT_max"] :=
  c5_theorem id ["AMT_CREDIT", "CODE_GENDER_M", "PREV_CNT_PAYMENT_max"] [] rawFemale
    (by decide)

/-! ## Claim C6: defaults for features no derivation rule assigns -/

/-- C6 (confirmed): a schema feature that no assignment of the mapping
targets keeps, in the aligned vector, the median-table entry for its
name when present and 0 when absent, for every applicant. -/
theorem c6_theorem (sq : ℚ → ℚ) (features : List String)
    (medians : List (String × ℚ)) (r : RawApplicant) (name : String)
    (hmem : name ∈ features)
    (hna : name ∉ (updates sq r).map fun u => u.2.1) :
    (alignedInput sq features medians r).lookup name = some (mget medians name) := by
  have hf : ∀ u ∈ updates sq r, u.2.1 = name → u.1 = false := by
    intro u hu he
    exact absurd (List.mem_map.mpr ⟨u, hu, he⟩) hna
  rw [alignedInput,
    lookup_map_pair (fun f => dget (inputDict sq features medians r) f 0) features name hmem,
    dget_inputDict_off sq features medians r name hmem hf]

/-- C6 witness: the aggregate feature PREV_CNT_PAYMENT_max, which no
derivation rule assigns, takes its median value 12 when the median
table has one, and 0 when the median table is empty. -/
theorem c6_witness :
    (alignedInput id ["PREV_CNT_PAYMENT_max"] [("PREV_CNT_PAYMENT_max", 12)]
        rawFemale).lookup "PREV_CNT_PAYMENT_max" =
      some (mget [("PREV_CNT_PAYMENT_max", 12)] "PREV_CNT_PAYMENT_max") ∧
    (alignedInput id ["PREV_CNT_PAYMENT_max"] [] rawFemale).lookup
        "PREV_CNT_PAYMENT_max" = some (mget [] "PREV_CNT_PAYMENT_max") :=
  ⟨c6_theorem id ["PREV_CNT_PAYMENT_max"] [("PREV_CNT_PAYMENT_max", 12)] rawFemale
      "PREV_CNT_PAYMENT_max" (by decide) (by decide),
   c6_theorem id ["PREV_CNT_PAYMENT_max"] [] rawFemale
      "PREV_CNT_PAYMENT_max" (by decide) (by decide)⟩

/-! ## Claim C7: risk-tier boundaries -/

/-- C7 (confirmed): p < 0.2 gives Low Risk, 0.2 <= p < 0.5 gives
Medium Risk, p >= 0.5 gives High Risk, with both boundaries landing in
the higher bucket exactly as written. -/
theorem c7_theorem (p : ℚ) :
    (p < 1/5 → riskTier p = .low) ∧
    (1/5 ≤ p → p < 1/2 → riskTier p = .medium) ∧
    (1/2 ≤ p → riskTier p = .high) := by
  refine ⟨fun h => ?_, fun h1 h2 => ?_, fun h => ?_⟩
  · rw [riskTier, if_pos h]
  · rw [riskTier, if_neg (by linarith), if_pos h2]
  · rw [riskTier, if_neg (by linarith), if_neg (by linarith)]

/-- C7 witness: the boundary probabilities 0.1, 0.2 and 0.5 land in
Low, Medium and High respectively. -/
theorem c7_witness :
    riskTier (1/10) = .low ∧ riskTier (1/5) = .medium ∧ riskTier (1/2) = .high :=
  ⟨(c7_theorem (1/10)).1 (by norm_num),
   (c7_theorem (1/5)).2.1 (by norm_num) (by norm_num),
   (c7_theorem (1/2)).2.2 (by norm_num)⟩

/-! ## Claim C8: scaling failure fallback and its visibility -/

/-- C8, counterexample: on a request whose scaler transform raises, the
caller-visible assessment is identical to the one of a run whose
scaling succeeded on the same prediction input; the only difference is
the console output, which the caller never receives. No degraded-result
flag is surfaced. -/
theorem c8_counterexample :
    (scorePipeline constModel none (some failingScaler) [1, 2]).1 =
      (scorePipeline constModel none (some identityScaler) [1, 2]).1 ∧
    (scorePipeline constModel none (some failingScaler) [1, 2]).2 ≠
      (scorePipeline constModel none (some identityScaler) [1, 2]).2 := by
  constructor
  · rfl
  · simp [scorePipeline, scaleStep, imputeStep, failingScaler, identityScaler]

/-- C8 (corrected): when the scaler transform raises on the imputed
vector, the request is not aborted: the pipeline falls back to the
imputed-but-unscaled vector and still returns a RiskAssessment
computed on it; the degradation, however, is only printed to the
server console and no degraded-result flag reaches the caller. -/
theorem c8_theorem (model : List ℚ → ℚ) (imputer : Option (List ℚ → List ℚ))
    (s : List ℚ → Except String (List ℚ)) (v : List ℚ) (err : String)
    (hfail : s (imputeStep imputer v) = .error err) :
    scorePipeline model imputer (some s) v =
      (assess (model (imputeStep imputer v)), ["Scaling warning: " ++ err]) := by
  simp [scorePipeline, scaleStep, hfail]

/-- C8 witness: the fallback on a concrete failing scaler. -/
theorem c8_witness :
    scorePipeline constModel none (some failingScaler) [1, 2] =
      (assess (constModel (imputeStep none [1, 2])),
        ["Scaling warning: " ++
          "X has 2 features, but RobustScaler is expecting 3 features as input."]) :=
  c8_theorem constModel none failingScaler [1, 2]
    "X has 2 features, but RobustScaler is expecting 3 features as input." rfl

/-! ## Claim C9: zero guards on the derived ratios -/

/-- C9 (confirmed): the derived ratios are total functions with
explicit guards: for annuity, goods price or age equal to zero (or
negative) the corresponding ratio is defined and equals the documented
fallback 0 exactly, so no division by zero is ever taken. -/
theorem c9_theorem (c a g e y : ℚ) :
    (a ≤ 0 → creditToAnnuityRatio c a = 0) ∧
    (g ≤ 0 → creditToGoodsRatio c g = 0) ∧
    (y ≤ 0 → employmentToAgeRatio e y = 0) := by
  refine ⟨fun h => ?_, fun h => ?_, fun h => ?_⟩
  · rw [creditToAnnuityRatio, if_neg (not_lt.mpr h)]
  · rw [creditToGoodsRatio, if_neg (not_lt.mpr h)]
  · rw [employmentToAgeRatio, if_neg (not_lt.mpr h)]

/-- C9 witness: the guards evaluated at annuity = 0, goods price = 0,
age = 0 on a concrete applicant. -/
theorem c9_witness :
    creditToAnnuityRatio 200000 0 = 0 ∧
    creditToGoodsRatio 200000 0 = 0 ∧
    employmentToAgeRatio 5 0 = 0 :=
  ⟨(c9_theorem 200000 0 0 5 0).1 le_rfl,
   (c9_theorem 200000 0 0 5 0).2.1 le_rfl,
   (c9_theorem 200000 0 0 5 0).2.2 le_rfl⟩

/-! ## Claim C10: the unclamped score formula stays in range -/

/-- C10 (confirmed): for every probability p in [0, 1] the unclamped
display-score value int(850 - p * 550) already lies inside [300, 850],
so the absence of a clamping step in the code loses nothing as long as
the classifier probability is a genuine probability. -/
theorem c10_theorem (p : ℚ) (h0 : 0 ≤ p) (h1 : p ≤ 1) :
    300 ≤ creditScore p ∧ creditScore p ≤ 850 := by
  have hx0 : (0 : ℚ) ≤ 850 - p * 550 := by nlinarith
  have heq : creditScore p = ⌊(850 : ℚ) - p * 550⌋ := by
    rw [creditScore, pyInt, if_pos hx0]
  constructor
  · rw [heq]
    exact Int.le_floor.mpr (by push_cast; nlinarith)
  · rw [heq]
    have : ⌊(850 : ℚ) - p * 550⌋ ≤ ⌊(850 : ℚ)⌋ :=
      Int.floor_le_floor (by nlinarith)
    simpa using this

/-- C10 witness: the extreme probabilities 0 and 1 give scores inside
the band. -/
theorem c10_witness :
    (300 ≤ creditScore 0 ∧ creditScore 0 ≤ 850) ∧
    (300 ≤ creditScore 1 ∧ creditScore 1 ≤ 850) :=
  ⟨c10_theorem 0 le_rfl (by norm_num), c10_theorem 1 (by norm_num) le_rfl⟩

end CreditScoring
